import Mathlib

/-!
Verification of the dndsim simulation core against its specification.

Shallow embedding of the Python sources under `src/python`:
  - `sim/attack.py` (`DamageRoll`)
  - `sim/events.py` (`AttackRollArgs`)
  - `sim/character.py` (`Character`: construction, rests, the crit handling
    inside `Character.attack`)
  - `sim/resource.py` (`Resource`, `WarlockPactSlots`)
  - `sim/event_loop.py` (`EventLoop.emit`)
  - `sim/party_sim.py` (`Combatant`, `Combat.run_combat_turn`)
  - `sim/__init__.py` (`Simulation`, `Args`, `test_dpr`)
  - `sim/target.py` (`Target`)
  - `classes/fighter.py` (`ImprovedCritical.attack_roll`)

Randomness (`random.randint`, `random.choice`) is resolved by explicit
oracle parameters; Python exceptions are rendered as `Except`; mutable
object state is threaded explicitly.  Heap references between `Combat`,
`Combatant` and entity objects are rendered as indices into lists.
-/

namespace DndSim

/-! ## sim/attack.py : DamageRoll -/

/-- `DamageRoll` dataclass from `sim/attack.py`: a source label, a list of die
sizes, a flat damage modifier, a damage type and the resolved individual die
results (`rolls`). -/
structure DamageRoll where
  source : String
  dice : List Nat
  flat_dmg : Int
  damage_type : String
  rolls : List Nat
  deriving DecidableEq, Repr

/-- `DamageRoll.__post_init__`: on construction, one die is rolled per entry of
`dice`.  The random `roll_dice(1, die)` calls are resolved by the oracle
`rollFn` (the die result for each die size). -/
def DamageRoll.make (source : String) (dice : List Nat) (flat_dmg : Int)
    (damage_type : String) (rollFn : Nat → Nat) : DamageRoll :=
  { source := source, dice := dice, flat_dmg := flat_dmg,
    damage_type := damage_type, rolls := dice.map rollFn }

/-- `DamageRoll.total`: flat modifier plus the sum of the resolved rolls. -/
def DamageRoll.total (d : DamageRoll) : Int :=
  d.flat_dmg + (d.rolls.sum : Int)

/-- `DamageRoll.double_dice` from `sim/attack.py`: doubles the dice list
(`self.dice = self.dice * 2`) and rerolls `rolls` over the doubled list. -/
def DamageRoll.double_dice (d : DamageRoll) (rollFn : Nat → Nat) : DamageRoll :=
  { d with dice := d.dice ++ d.dice, rolls := (d.dice ++ d.dice).map rollFn }

/-- The crit branch inside `Character.attack` (`sim/character.py`, the
`for damage in result.damage_rolls` loop): `damage.dice = 2 * damage.dice`.
It mutates only the `dice` field; `rolls` is left as constructed. -/
def Character.attack_crit_double (d : DamageRoll) : DamageRoll :=
  { d with dice := d.dice ++ d.dice }

/-! ## sim/events.py : AttackRollArgs -/

/-- `AttackRollArgs` from `sim/events.py`: the two independent d20 results,
advantage / disadvantage flags, situational bonus and the optional crit
threshold override. -/
structure AttackRollArgs where
  to_hit : Int
  adv : Bool
  disadv : Bool
  roll1 : Nat
  roll2 : Nat
  situational_bonus : Int
  min_crit : Option Int
  deriving DecidableEq, Repr

/-- `AttackRollArgs.__init__`: both d20s are rolled at construction (resolved
here by the explicit values `r1`, `r2`), flags cleared, no crit override. -/
def AttackRollArgs.make (to_hit : Int) (r1 r2 : Nat) : AttackRollArgs :=
  { to_hit := to_hit, adv := false, disadv := false, roll1 := r1, roll2 := r2,
    situational_bonus := 0, min_crit := none }

/-- `AttackRollArgs.roll`: advantage and disadvantage cancel to the first
roll; advantage alone takes the max, disadvantage alone the min, otherwise
the first roll. -/
def AttackRollArgs.roll (a : AttackRollArgs) : Nat :=
  if a.adv && a.disadv then a.roll1
  else if a.adv then max a.roll1 a.roll2
  else if a.disadv then min a.roll1 a.roll2
  else a.roll1

/-! ## classes/fighter.py : ImprovedCritical, and the crit determination in
Character.attack -/

/-- `ImprovedCritical.attack_roll` from `classes/fighter.py`: if
`args.min_crit` is truthy (Python: not `None` and not `0`), replace it with
`min(args.min_crit, self.min_crit)`; otherwise set it to `self.min_crit`. -/
def ImprovedCritical.attack_roll (self_min : Int) (cur : Option Int) : Option Int :=
  match cur with
  | some c => if c ≠ 0 then some (min c self_min) else some self_min
  | none => some self_min

/-- The `attack_roll` emission of `Character.attack_roll` restricted to a
registration-ordered list of `ImprovedCritical`-style listeners, each
proposing its threshold: the listeners run in order, each applying
`ImprovedCritical.attack_roll` to the accumulated `min_crit` field (initially
`None` from `AttackRollArgs.__init__`). -/
def emit_attack_roll_min_crit (proposals : List Int) (cur : Option Int) : Option Int :=
  proposals.foldl (fun c p => ImprovedCritical.attack_roll p c) cur

/-- `Attack.min_crit` from `sim/attack.py`: the base class default crit
threshold is 20 (weapons and spells may override it). -/
def Attack.min_crit_default : Int := 20

/-- The crit-threshold resolution in `Character.attack` (`sim/character.py`
lines 621-626): use the attack's own `min_crit()` when no listener set the
override, else the override. -/
def Character.resolve_min_crit (attack_min_crit : Int) (roll_min_crit : Option Int) : Int :=
  match roll_min_crit with
  | none => attack_min_crit
  | some m => m

/-- The crit determination in `Character.attack`: `crit = roll >= min_crit`. -/
def Character.attack_is_crit (roll : Nat) (attack_min_crit : Int)
    (roll_min_crit : Option Int) : Bool :=
  (roll : Int) ≥ Character.resolve_min_crit attack_min_crit roll_min_crit

/-! ## sim/resource.py : Resource and WarlockPactSlots -/

/-- `Resource` from `sim/resource.py`: name, current uses `num`, maximum
`max`, reset policy flag and the per-resource usage log.  The back-reference
to the owning character is rendered by passing `current_round` explicitly to
`use`/`gain`. -/
structure Resource where
  name : String
  num : Int
  max : Int
  reset_on_short_rest : Bool
  log : List String
  deriving DecidableEq, Repr

/-- `Resource.__init__`: starts at `num = 0`, `max = 0` with an empty log. -/
def Resource.make (name : String) (short_rest : Bool) : Resource :=
  { name := name, num := 0, max := 0, reset_on_short_rest := short_rest, log := [] }

/-- `Resource.increase_max`: raises `ValueError` on a negative amount, else
adds to `max`. -/
def Resource.increase_max (amount : Int) (r : Resource) : Except String Resource :=
  if amount < 0 then .error s!"Cannot increase max by negative amount: {amount}"
  else .ok { r with max := r.max + amount }

/-- `Resource.reset`: sets `num` to `max` and clears the log. -/
def Resource.reset (r : Resource) : Resource :=
  { r with num := r.max, log := [] }

/-- `Resource.gain`: raises on a negative amount, else gains up to `max`,
appending a log entry when a detail is given. -/
def Resource.gain (amount : Int) (detail : Option String) (r : Resource) :
    Except String Resource :=
  if amount < 0 then .error s!"Cannot gain negative amount: {amount}"
  else
    let r1 := { r with num := min r.max (r.num + amount) }
    .ok (match detail with
      | some d => { r1 with log := r1.log ++ [s!"Gained: {d}"] }
      | none => r1)

/-- The log line built inside `Resource.use` from the detail, the owning
character's `current_round` and the optional target name. -/
def Resource.use_log_line (current_round : Int) (d : String)
    (targetName : Option String) : String :=
  match targetName with
  | some t => s!"Round {current_round}: {d} against {t}"
  | none => s!"Round {current_round}: {d}"

/-- `Resource.use`: raises on a negative amount; consumes and returns `true`
when `num >= amount` (appending a log line when a detail is given), else
returns `false` leaving the state unchanged. -/
def Resource.use (amount : Int) (detail : Option String)
    (targetName : Option String) (current_round : Int) (r : Resource) :
    Except String (Bool × Resource) :=
  if amount < 0 then .error s!"Cannot use negative amount: {amount}"
  else if r.num ≥ amount then
    let r1 := { r with num := r.num - amount }
    .ok (true, match detail with
      | some d => { r1 with log := r1.log ++ [Resource.use_log_line current_round d targetName] }
      | none => r1)
  else .ok (false, r)

/-- `Resource.has`: at least `amount` uses remain. -/
def Resource.has (amount : Int) (r : Resource) : Bool :=
  r.num ≥ amount

/-- `Resource.short_rest`: resets only when the policy is short-rest. -/
def Resource.short_rest (r : Resource) : Resource :=
  if r.reset_on_short_rest then r.reset else r

/-- `Resource.long_rest`: always resets. -/
def Resource.long_rest (r : Resource) : Resource :=
  r.reset

/-- `pact_spell_slots` from `sim/resource.py`: slot level and slot count of a
warlock's pact magic, both derived from the warlock level. -/
def pact_spell_slots (level : Int) : List Int :=
  if level < 1 then []
  else
    let slot_level : Int :=
      if level ≥ 9 then 5
      else if level ≥ 7 then 4
      else if level ≥ 5 then 3
      else if level ≥ 3 then 2
      else 1
    let num_slots : Nat :=
      if level ≥ 17 then 4
      else if level ≥ 11 then 3
      else if level ≥ 2 then 2
      else 1
    List.replicate num_slots slot_level

/-- `WarlockPactSlots`: a `Resource` specialization whose `max`, `num` and
slot level all derive from the warlock level. -/
structure WarlockPactSlots where
  base : Resource
  warlock_level : Int
  slot_level : Int
  num_slots : Nat
  deriving DecidableEq, Repr

/-- `WarlockPactSlots._update_slots`: recompute slot level, slot count, `max`
and `num` from the warlock level via `pact_spell_slots`. -/
def WarlockPactSlots.update_slots (w : WarlockPactSlots) : WarlockPactSlots :=
  match pact_spell_slots w.warlock_level with
  | [] =>
      { w with
        slot_level := 0
        num_slots := 0
        base := { w.base with max := 0, num := 0 } }
  | s :: rest =>
      { w with
        slot_level := s
        num_slots := (s :: rest).length
        base := { w.base with max := ((s :: rest).length : Int), num := ((s :: rest).length : Int) } }

/-- `WarlockPactSlots.__init__`: the super constructor makes a short-rest
"Pact Slots" resource, then `_update_slots` derives the counts. -/
def WarlockPactSlots.make (warlock_level : Int) : WarlockPactSlots :=
  WarlockPactSlots.update_slots
    { base := Resource.make "Pact Slots" true, warlock_level := warlock_level,
      slot_level := 0, num_slots := 0 }

/-- `WarlockPactSlots.use` (overriding `Resource.use`, with no negative-amount
check): consumes and returns `true` when `num >= amount`, else `false` with
the state unchanged. -/
def WarlockPactSlots.use (amount : Int) (detail : Option String)
    (targetName : Option String) (current_round : Int) (w : WarlockPactSlots) :
    Bool × WarlockPactSlots :=
  if w.base.num ≥ amount then
    let b1 := { w.base with num := w.base.num - amount }
    let b2 := match detail with
      | some d => { b1 with log := b1.log ++
          [Resource.use_log_line current_round s!"{d} (Level {w.slot_level})" targetName] }
      | none => b1
    (true, { w with base := b2 })
  else (false, w)

/-! ## sim/event_loop.py : EventLoop.emit

`emit` walks, in registration order, the listeners registered for the event;
a listener without a matching handler (`hasattr` false) is skipped, otherwise
its handler runs on the shared payload.  A handler is embedded as a fallible
state transformer `σ → Except ε σ` (an uncaught Python exception is `.error`),
and a listener's entry for the event is `Option`-valued (`none` = no handler).
-/

/-- `EventLoop.emit`: dispatch the event's payload state through the
registered listeners in order; a raising handler propagates its exception,
ending the dispatch. -/
def EventLoop.emit {σ ε : Type} :
    List (Option (σ → Except ε σ)) → σ → Except ε σ
  | [], s => .ok s
  | none :: rest, s => EventLoop.emit rest s
  | some h :: rest, s =>
      match h s with
      | .error e => .error e
      | .ok s2 => EventLoop.emit rest s2

/-! ## sim/character.py : Character -/

/-- Modelled from the spec: `util/util.py` (function `prof_bonus`) is not
under `src/`; the spec only says the proficiency bonus is a derived function
of the level, so the standard progression `2 + (level - 1) // 4` is used.
No claim depends on its values. -/
def prof_bonus (level : Int) : Int :=
  2 + Int.fdiv (level - 1) 4

/-- Constant `DEFAULT_AC` from `sim/character.py`. -/
def DEFAULT_AC : Int := 15

/-- Constant `BASE_HP` from `sim/character.py`. -/
def BASE_HP : Int := 10

/-- Constant `HP_PER_LEVEL` from `sim/character.py`. -/
def HP_PER_LEVEL : Int := 6

/-- `Character` from `sim/character.py`, restricted to the state the claims
exercise: the validated constructor arguments, hit points, per-turn flags,
the poisoned flag, the effects set (as a list) and the attached resources
(the listeners registered for the `short_rest`/`long_rest` events, in
registration order). -/
structure Character where
  name : String
  level : Int
  prof : Int
  stats : List Int
  ac : Int
  max_hp : Int
  hp : Int
  actions : Int
  used_bonus : Bool
  current_round : Int
  poisoned : Bool
  effects : List String
  resources : List Resource
  deriving DecidableEq, Repr

/-- `Character._calculate_max_hp`:
`BASE_HP + (level - 1) * HP_PER_LEVEL + CON_mod * level` with
`CON_mod = (con - 10) // 2` (Python floor division). -/
def Character.calculate_max_hp (level con : Int) : Int :=
  BASE_HP + (level - 1) * HP_PER_LEVEL + Int.fdiv (con - 10) 2 * level

/-- `Character.__init__`: raises `ValueError` unless the stats list has 6
entries and `1 <= level <= 20`; otherwise stores the arguments unaltered and
derives proficiency and hit points.  Feats, spellcasting and maneuvers are
outside the claims and elided. -/
def Character.init (level : Int) (stats : List Int) (name : String)
    (ac : Option Int) : Except String Character :=
  if stats.length ≠ 6 then
    .error "Stats must have 6 values"
  else if ¬ (1 ≤ level ∧ level ≤ 20) then
    .error s!"Level must be 1-20, got {level}"
  else
    let maxhp := Character.calculate_max_hp level (stats.getD 2 10)
    .ok
      { name := name
        level := level
        prof := prof_bonus level
        stats := stats
        ac := ac.getD DEFAULT_AC
        max_hp := maxhp
        hp := maxhp
        actions := 1
        used_bonus := false
        current_round := 0
        poisoned := false
        effects := []
        resources := [] }

/-- The effective `Character.short_rest` (`sim/character.py` line 518; it
shadows the earlier definition at line 221): clears the effects set and emits
`short_rest`, which each attached resource answers with its
`Resource.short_rest` handler. -/
def Character.short_rest (c : Character) : Character :=
  { c with effects := [], resources := c.resources.map Resource.short_rest }

/-- The effective `Character.long_rest` (`sim/character.py` line 523; it
shadows the earlier definition at line 212): restores hit points, runs
`short_rest`, then emits `long_rest`, which each attached resource answers
with its `Resource.long_rest` handler. -/
def Character.long_rest (c : Character) : Character :=
  let c1 := { c with hp := c.max_hp }
  let c2 := c1.short_rest
  { c2 with resources := c2.resources.map Resource.long_rest }

/-! ## sim/target.py : Target -/

/-- `TARGET_AC` table from `sim/target.py`: level-appropriate AC values. -/
def TARGET_AC : List Int :=
  [13, 13, 13, 14, 15, 15, 15, 16, 16, 17, 17, 17, 18, 18, 18, 18, 19, 19, 19, 19]

/-- `Target` from `sim/target.py`: level, name, AC, proficiency, save data,
accumulated damage and the condition flags. -/
structure Target where
  level : Int
  name : String
  ac : Int
  prof : Int
  ability : Int
  save_bonus : Int
  dmg : Int
  stunned : Bool
  stun_turns : Int
  grappled : Bool
  prone : Bool
  semistunned : Bool
  deriving DecidableEq, Repr

/-- `Target.__init__`: raises `ValueError` unless `1 <= level <= 20`; AC is
the override or the level-appropriate table entry; the trailing `long_rest()`
zeroes the damage and clears all conditions. -/
def Target.init (level : Int) (ac : Option Int) (name : String) :
    Except String Target :=
  if ¬ (1 ≤ level ∧ level ≤ 20) then
    .error s!"Level must be 1-20, got {level}"
  else
    .ok
      { level := level
        name := name
        ac := match ac with
          | some a => a
          | none => TARGET_AC.getD (level - 1).toNat 0
        prof := prof_bonus level
        ability := if level ≥ 8 then 5 else if level ≥ 4 then 4 else 3
        save_bonus := prof_bonus level + (if level ≥ 8 then 5 else if level ≥ 4 then 4 else 3)
        dmg := 0
        stunned := false
        stun_turns := 0
        grappled := false
        prone := false
        semistunned := false }

/-! ## sim/__init__.py : Simulation, Args, test_dpr -/

/-- Constant `MAX_ITERATIONS` from `sim/__init__.py`. -/
def MAX_ITERATIONS : Int := 10000

/-- `Simulation` from `sim/__init__.py`: the fight/round counts of one DPR
trial (the character and target are threaded separately). -/
structure Simulation where
  num_fights : Int
  num_rounds : Int
  deriving DecidableEq, Repr

/-- `Simulation.__init__`: raises `ValueError` when `num_fights < 1` or
`num_rounds < 1`, else stores the counts unaltered. -/
def Simulation.init (num_fights num_rounds : Int) : Except String Simulation :=
  if num_fights < 1 then
    .error s!"num_fights must be positive, got {num_fights}"
  else if num_rounds < 1 then
    .error s!"num_rounds must be positive, got {num_rounds}"
  else
    .ok { num_fights := num_fights, num_rounds := num_rounds }

/-- `Args` from `sim/__init__.py`: parameters of a parallel character test. -/
structure Args where
  character : String
  start_level : Int
  end_level : Int
  iterations : Int
  num_rounds : Int
  num_fights : Int
  debug : Bool
  monster_name : String
  deriving DecidableEq, Repr

/-- `Args.__init__`: validates the two levels (1-20, start <= end) and the
iteration count (positive and at most `MAX_ITERATIONS`); `num_rounds` and
`num_fights` are stored without validation. -/
def Args.init (character : String) (start_level end_level iterations num_rounds num_fights : Int)
    (debug : Bool) (monster_name : String) : Except String Args :=
  if ¬ (1 ≤ start_level ∧ start_level ≤ 20) then
    .error s!"start_level must be 1-20, got {start_level}"
  else if ¬ (1 ≤ end_level ∧ end_level ≤ 20) then
    .error s!"end_level must be 1-20, got {end_level}"
  else if start_level > end_level then
    .error "start_level cannot exceed end_level"
  else if iterations < 1 then
    .error s!"iterations must be positive, got {iterations}"
  else if iterations > MAX_ITERATIONS then
    .error "iterations exceeds maximum"
  else
    .ok
      { character := character
        start_level := start_level
        end_level := end_level
        iterations := iterations
        num_rounds := num_rounds
        num_fights := num_fights
        debug := debug
        monster_name := monster_name }

/-! ## sim/__init__.py : Simulation.run and test_dpr -/

/-- The observable calls `Simulation.run` makes, in order. -/
inductive SimAction where
  | characterLongRest
  | targetLongRest
  | characterTurn (round_num : Nat)
  | characterEnemyTurn
  | targetTurn
  | characterShortRest
  | logDamageSources
  deriving DecidableEq, Repr

/-- The body of one fight in `Simulation.run`: for each round, the character's
turn, the character's `enemy_turn` reaction hook, then the target's turn. -/
def Simulation.fightRounds (num_rounds : Nat) : List SimAction :=
  (List.range num_rounds).flatMap fun round_num =>
    [.characterTurn round_num, .characterEnemyTurn, .targetTurn]

/-- `Simulation.run` as the sequence of calls it performs: both long rests,
then for each fight its rounds followed by a short rest unless it is the last
fight (`if fight_num < self.num_fights - 1`), then the damage-source log. -/
def Simulation.runTrace (num_fights num_rounds : Nat) : List SimAction :=
  [.characterLongRest, .targetLongRest]
    ++ ((List.range num_fights).flatMap fun fight_num =>
      Simulation.fightRounds num_rounds
        ++ if fight_num < num_fights - 1 then [.characterShortRest] else [])
    ++ [.logDamageSources]

/-- The schedule in the spec's words: each round is the attacker's turn
before the target's turn (with the reaction hook in between). -/
def specRound (round_num : Nat) : List SimAction :=
  [.characterTurn round_num, .characterEnemyTurn, .targetTurn]

/-- The schedule in the spec's words: the configured number of rounds, in
order. -/
def specRounds : Nat → List SimAction
  | 0 => []
  | n + 1 => specRounds n ++ specRound n

/-- The schedule in the spec's words: the fights one after another, a short
rest between consecutive fights and none after the last. -/
def specFights (num_rounds : Nat) : Nat → List SimAction
  | 0 => []
  | 1 => specRounds num_rounds
  | n + 2 => specRounds num_rounds ++ [.characterShortRest] ++ specFights num_rounds (n + 1)

/-- `test_dpr` from `sim/__init__.py`: each of the `iterations` trials yields
its total damage (`trial_damage i`, the target's accumulated `dmg` after
`Simulation.run`); the reported DPR divides the summed damage by
`num_fights * num_rounds * iterations` (zero when that product is zero), and
a non-positive iteration count raises `ValueError`. -/
def test_dpr (num_fights num_rounds iterations : Nat) (trial_damage : Nat → ℚ) :
    Except String ℚ :=
  if iterations < 1 then .error s!"iterations must be positive, got {iterations}"
  else
    let total_damage : ℚ := (((List.range iterations).map trial_damage).sum)
    let total_rounds : Nat := num_fights * num_rounds * iterations
    .ok (if total_rounds > 0 then total_damage / (total_rounds : ℚ) else 0)

/-! ## sim/party_sim.py : Combatant and Combat

`party_sim.py` treats the wrapped entities duck-typed (`EntityType = Any`):
it only reads `name`, `hp`, `max_hp`, `mod('dex')`, `ai_behavior`,
`threat_rating`, calls `long_rest()` (which restores `hp` to `max_hp`) and
`turn(target_entity, ...)` (which damages the selected target's entity).  An
entity is therefore embedded as the record of those observables, with `atk`
the damage its `turn` deals to its target.  Python object references are
rendered as indices: `Combatant.entityIdx` into `Combat.entities`, and
`Combat.turn_order` as indices into `Combat.combatants` (the identity test
`turn_order[0] == combatants[0]` becomes index 0 at the front).  The RNG
(`random.randint`, `random.choice`) is the oracle stream `choices`. -/

/-- An entity as observed by `party_sim.py` (duck-typed `EntityType`). -/
structure PEntity where
  name : String
  hp : Int
  max_hp : Int
  dexmod : Int
  ai_behavior : String
  threat_rating : Int
  atk : Int
  deriving DecidableEq, Repr, Inhabited

/-- `Combatant` from `sim/party_sim.py`: combat-scoped wrapper state. -/
structure Combatant where
  entityIdx : Nat
  team : String
  initiative : Int
  current_hp : Int
  is_down : Bool
  deriving DecidableEq, Repr, Inhabited

/-- `Combatant.is_alive`: not defeated. -/
def Combatant.is_alive (cb : Combatant) : Bool :=
  !cb.is_down

/-- `Combatant.take_damage`: sync `current_hp` from the entity's hp
(`entity_hp`, the back-reference passed explicitly); on the transition to
`hp <= 0` while not already down, set `is_down` and clamp `current_hp` to 0. -/
def Combatant.take_damage (entity_hp : Int) (cb : Combatant) : Combatant :=
  let cb1 := { cb with current_hp := entity_hp }
  if cb1.current_hp ≤ 0 ∧ cb1.is_down = false then
    { cb1 with is_down := true, current_hp := 0 }
  else cb1

/-- Constant `MAX_COMBAT_ROUNDS` from `sim/party_sim.py`. -/
def MAX_COMBAT_ROUNDS : Nat := 100

/-- `Combat` from `sim/party_sim.py`: the entity heap, the combatant roster
(party members precede enemies, as `combatants = party + enemies`), the
turn-order rotation, the round counter, and the RNG oracle stream. -/
structure Combat where
  entities : List PEntity
  combatants : List Combatant
  turn_order : List Nat
  rounds : Nat
  choices : List Nat
  deriving DecidableEq, Repr, Inhabited

/-- Dereference a combatant index. -/
def Combat.getCombatant (c : Combat) (j : Nat) : Combatant :=
  c.combatants.getD j default

/-- Dereference a combatant's wrapped entity. -/
def Combat.entityOf (c : Combat) (cb : Combatant) : PEntity :=
  c.entities.getD cb.entityIdx default

/-- Draw the next value from the RNG oracle stream (`random.choice` /
`random.randint` resolution). -/
def Combat.next_choice (c : Combat) : Nat × Combat :=
  match c.choices with
  | [] => (0, c)
  | x :: xs => (x, { c with choices := xs })

/-- Whether any party combatant is alive (`any(c.is_alive() for c in
self.party)`; party members are the `"party"`-teamed combatants). -/
def Combat.party_alive (c : Combat) : Bool :=
  c.combatants.any fun cb => cb.team == "party" && cb.is_alive

/-- Whether any enemy combatant is alive. -/
def Combat.enemies_alive (c : Combat) : Bool :=
  c.combatants.any fun cb => cb.team == "enemies" && cb.is_alive

/-- `Combat.is_over`: a side has been wiped out or the round ceiling is
reached. -/
def Combat.is_over (c : Combat) : Bool :=
  !c.party_alive || !c.enemies_alive || decide (c.rounds ≥ MAX_COMBAT_ROUNDS)

/-- `Combat._get_valid_targets`: the alive combatants of the opposing team,
in roster order (as combatant indices). -/
def Combat.valid_targets (c : Combat) (cb : Combatant) : List Nat :=
  if cb.team == "party" then
    (List.range c.combatants.length).filter fun j =>
      (c.getCombatant j).team == "enemies" && (c.getCombatant j).is_alive
  else
    (List.range c.combatants.length).filter fun j =>
      (c.getCombatant j).team == "party" && (c.getCombatant j).is_alive

/-- Python `min(targets, key=lambda t: t.current_hp)`: the first target with
minimal current HP. -/
def Combat.lowest_hp_target (c : Combat) (t : Nat) (rest : List Nat) : Nat :=
  rest.foldl
    (fun best j =>
      if (c.getCombatant j).current_hp < (c.getCombatant best).current_hp then j
      else best)
    t

/-- `Combat._select_target_simple`: the target with lowest current HP, except
that when every target is at full HP the target is drawn uniformly
(`random.choice`, resolved from the oracle stream). -/
def Combat.select_target_simple (c : Combat) (targets : List Nat) : Nat × Combat :=
  match targets with
  | [] => (0, c)
  | t :: rest =>
      let lowest := c.lowest_hp_target t rest
      if (t :: rest).all (fun j =>
          (c.getCombatant j).current_hp = (c.entityOf (c.getCombatant j)).max_hp) then
        let xc := c.next_choice
        ((t :: rest).getD (xc.1 % (t :: rest).length) 0, xc.2)
      else (lowest, c)

/-- Python `max(targets, key=lambda t: t.entity.threat_rating)`: the first
target with maximal threat rating (`Combat._select_target_brute`). -/
def Combat.select_target_brute (c : Combat) (t : Nat) (rest : List Nat) : Nat :=
  rest.foldl
    (fun best j =>
      if (c.entityOf (c.getCombatant best)).threat_rating
          < (c.entityOf (c.getCombatant j)).threat_rating then j
      else best)
    t

/-- `Combat._select_target`: dispatch on the entity's `ai_behavior` tag —
`brute` picks by threat rating, `caster` and everything else use the simple
lowest-HP policy. -/
def Combat.select_target (c : Combat) (cb : Combatant) (targets : List Nat) :
    Nat × Combat :=
  if (c.entityOf cb).ai_behavior == "brute" then
    match targets with
    | [] => (0, c)
    | t :: rest => (c.select_target_brute t rest, c)
  else c.select_target_simple targets

/-- `combatant.entity.turn(target.entity, ...)`: the acting entity's turn
deals its damage to the selected target's entity. -/
def Combat.entity_turn (c : Combat) (attackerIdx targetIdx : Nat) : Combat :=
  let attacker := c.entityOf (c.getCombatant attackerIdx)
  let tEntIdx := (c.getCombatant targetIdx).entityIdx
  let tEnt := c.entities.getD tEntIdx default
  { c with entities := c.entities.set tEntIdx { tEnt with hp := tEnt.hp - attacker.atk } }

/-- `target.take_damage()` on the combatant at index `j`. -/
def Combat.take_damage_at (c : Combat) (j : Nat) : Combat :=
  let cb := c.getCombatant j
  let ehp := (c.entities.getD cb.entityIdx default).hp
  { c with combatants := c.combatants.set j (Combatant.take_damage ehp cb) }

/-- `Combat.setup_combat`: every entity long-rests (hp restored to max), each
combatant rolls initiative `d20 + dex` (d20s resolved from the oracle
stream), and the turn order is the stable initiative-descending sort of the
roster. -/
def Combat.setup_combat (c : Combat) : Combat :=
  let ents := c.entities.map fun e => { e with hp := e.max_hp }
  let cbs := c.combatants.mapIdx fun i cb =>
    { cb with initiative :=
        ((c.choices.getD i 0) % 20 + 1 : Nat) + (ents.getD cb.entityIdx default).dexmod }
  let order := (List.range cbs.length).mergeSort fun i j =>
    (cbs.getD j default).initiative ≤ (cbs.getD i default).initiative
  { c with
    entities := ents
    combatants := cbs
    turn_order := order
    choices := c.choices.drop c.combatants.length }

/-- The body of `Combat.run_combat_turn` after the rotation: `c1` is the
state with the rotated turn order and `idx` the acting combatant.  A downed
combatant is skipped; with no valid target the turn ends; otherwise enemies
pick by AI and party members take the first valid target, the entity turn
and `take_damage` run, and the round counter increments when the front of
the rotated order is `combatants[0]`. -/
def Combat.act (c1 : Combat) (idx : Nat) : Combat :=
  let cb := c1.getCombatant idx
  if cb.is_down then c1
  else
    let ts := c1.valid_targets cb
    if ts = [] then c1
    else
      let tc := if cb.team == "enemies" then c1.select_target cb ts
        else (ts.headD 0, c1)
      let c3 := tc.2.entity_turn idx tc.1
      let c4 := c3.take_damage_at tc.1
      if c4.turn_order.head? = some 0 then { c4 with rounds := c4.rounds + 1 }
      else c4

/-- The unconditional tail of `Combat.run_combat_turn`: pop the front
combatant (`combatant = self.turn_order[0]`), rotate the order, and act.
The `[]` arm models the state on which Python's `self.turn_order[0]` would
raise `IndexError`; it is unreachable from `run_combat_turn`: when the
roster is empty `is_over` is already true
(`Combat.not_over_combatants_ne_nil`), and otherwise the order rebuilt by
`setup_combat` is nonempty (`Combat.setup_combat_turn_order_ne_nil`). -/
def Combat.advance (c0 : Combat) : Combat :=
  match c0.turn_order with
  | [] => c0
  | idx :: rest => Combat.act { c0 with turn_order := rest ++ [idx] } idx

/-- `Combat.run_combat_turn`: no-op when the combat is over; when the turn
order is empty, rebuild it with `setup_combat` and fall through — the Python
has no `return` after `self.setup_combat()` — so the newly sorted front
combatant pops, rotates and acts within the same call; otherwise pop the
front combatant, push it to the back, and act. -/
def Combat.run_combat_turn (c : Combat) : Combat :=
  if c.is_over then c
  else if c.turn_order.isEmpty then c.setup_combat.advance
  else c.advance

/-- A 3-combatant combat (two party members wrapping entities A and B, one
enemy wrapping E; every turn deals 0 damage) in which combatant 1 (B) is
already defeated and the initiative order is `[0, 2, 1]`: the sub-turn that
completes the rotation cycle is B's, which is skipped. -/
def c7ex : Combat :=
  { entities :=
      [⟨"A", 10, 10, 0, "simple", 1, 0⟩, ⟨"B", 0, 10, 0, "simple", 1, 0⟩,
       ⟨"E", 10, 10, 0, "simple", 1, 0⟩]
    combatants :=
      [⟨0, "party", 12, 10, false⟩, ⟨1, "party", 5, 0, true⟩,
       ⟨2, "enemies", 8, 10, false⟩]
    turn_order := [0, 2, 1]
    rounds := 0
    choices := [0] }

/-- The same 3-combatant combat with every combatant alive. -/
def c7ok : Combat :=
  { entities :=
      [⟨"A", 10, 10, 0, "simple", 1, 0⟩, ⟨"B", 10, 10, 0, "simple", 1, 0⟩,
       ⟨"E", 10, 10, 0, "simple", 1, 0⟩]
    combatants :=
      [⟨0, "party", 12, 10, false⟩, ⟨1, "party", 5, 10, false⟩,
       ⟨2, "enemies", 8, 10, false⟩]
    turn_order := [0, 2, 1]
    rounds := 0
    choices := [0] }

/-- The combat `c7ex` with the defeated combatant at the front of the turn
order. -/
def c7skip : Combat :=
  { c7ex with turn_order := [1, 0, 2] }

/-! ## Theorems -/

/-- C1: For every attack resolved by `Character.attack` that is a critical
hit, each accumulated `DamageRoll` has its dice count doubled with the flat
modifier unchanged — but, contrary to the claim, the applied damage does NOT
reflect the doubled dice: the crit branch writes `damage.dice = 2 *
damage.dice` without rerolling or extending `rolls` (unlike the purpose-built
`DamageRoll.double_dice`), so `total()` is unchanged and the doubled dice
list no longer has one resolved roll per die.  Evaluated at the failing
input: a crit-doubled roll of one d6 (resolved 4) plus flat 2 keeps total 6
and ends with 2 dice but a single resolved roll, while `double_dice` on the
same roll does keep one resolved roll per die. -/
theorem character_attack_crit_dice_doubling_bug :
    (Character.attack_crit_double (DamageRoll.make "Longsword" [6] 2 "slashing" (fun _ => 4))).total
      = (DamageRoll.make "Longsword" [6] 2 "slashing" (fun _ => 4)).total
    ∧ (Character.attack_crit_double (DamageRoll.make "Longsword" [6] 2 "slashing" (fun _ => 4))).dice.length = 2
    ∧ (Character.attack_crit_double (DamageRoll.make "Longsword" [6] 2 "slashing" (fun _ => 4))).flat_dmg = 2
    ∧ (Character.attack_crit_double (DamageRoll.make "Longsword" [6] 2 "slashing" (fun _ => 4))).rolls.length = 1
    ∧ (Character.attack_crit_double (DamageRoll.make "Longsword" [6] 2 "slashing" (fun _ => 4))).total = 6
    ∧ ((DamageRoll.make "Longsword" [6] 2 "slashing" (fun _ => 4)).double_dice (fun _ => 4)).rolls.length
        = ((DamageRoll.make "Longsword" [6] 2 "slashing" (fun _ => 4)).double_dice (fun _ => 4)).dice.length := by
  refine ⟨rfl, rfl, rfl, rfl, rfl, rfl⟩

/-- C2: `AttackRollArgs.roll` resolves to `roll1` when advantage and
disadvantage are both set (cancellation uses the first roll), to
`max roll1 roll2` with advantage alone, to `min roll1 roll2` with
disadvantage alone, and to `roll1` with neither; in particular with
`roll1 = 3`, `roll2 = 18` advantage alone gives 18, disadvantage alone
gives 3, and both give 3. -/
theorem attack_roll_adv_disadv_resolution :
    (∀ r1 r2 : Nat, ∀ t : Int,
      ({ AttackRollArgs.make t r1 r2 with adv := true, disadv := true } : AttackRollArgs).roll = r1
      ∧ ({ AttackRollArgs.make t r1 r2 with adv := true } : AttackRollArgs).roll = max r1 r2
      ∧ ({ AttackRollArgs.make t r1 r2 with disadv := true } : AttackRollArgs).roll = min r1 r2
      ∧ (AttackRollArgs.make t r1 r2).roll = r1)
    ∧ ({ AttackRollArgs.make 0 3 18 with adv := true } : AttackRollArgs).roll = 18
    ∧ ({ AttackRollArgs.make 0 3 18 with disadv := true } : AttackRollArgs).roll = 3
    ∧ ({ AttackRollArgs.make 0 3 18 with adv := true, disadv := true } : AttackRollArgs).roll = 3 := by
  refine ⟨fun r1 r2 t => ⟨rfl, rfl, rfl, rfl⟩, rfl, rfl, rfl⟩

theorem emit_attack_roll_min_crit_pos (p : Int) (ps : List Int) (hp : 0 < p)
    (hps : ∀ q ∈ ps, 0 < q) :
    emit_attack_roll_min_crit ps (some p) = some (ps.foldl min p) := by
  induction ps generalizing p with
  | nil => rfl
  | cons q rest ih =>
      have hq : 0 < q := hps q (List.mem_cons_self q rest)
      have hrest : ∀ x ∈ rest, 0 < x := fun x hx => hps x (List.mem_cons_of_mem q hx)
      have hne : p ≠ 0 := ne_of_gt hp
      have hmin : 0 < min p q := lt_min hp hq
      simp only [emit_attack_roll_min_crit, List.foldl_cons,
        ImprovedCritical.attack_roll, if_pos hne] at *
      exact ih (min p q) hmin hrest

/-- C3: the effective crit threshold is the minimum of all thresholds
proposed (positively) by abilities during the `attack_roll` emission — in
particular proposals 19 and 18 in the same attack yield 18 — and when no
ability proposes one it is the attack's own default `min_crit()` (20 for the
base `Attack`); the attack is a crit iff the resolved d20 is at least this
threshold. -/
theorem crit_threshold_min_aggregation :
    (∀ (p : Int) (rest : List Int), 0 < p → (∀ q ∈ rest, 0 < q) →
      emit_attack_roll_min_crit (p :: rest) none = some (rest.foldl min p))
    ∧ emit_attack_roll_min_crit [19, 18] none = some 18
    ∧ (∀ d : Int, Character.resolve_min_crit d (emit_attack_roll_min_crit [] none) = d)
    ∧ Character.resolve_min_crit Attack.min_crit_default (emit_attack_roll_min_crit [] none) = 20
    ∧ (∀ (roll : Nat) (d : Int) (o : Option Int),
      Character.attack_is_crit roll d o = true ↔
        (roll : Int) ≥ Character.resolve_min_crit d o) := by
  refine ⟨?_, rfl, fun d => rfl, rfl, ?_⟩
  · intro p rest hp hrest
    have h0 : emit_attack_roll_min_crit (p :: rest) none
        = emit_attack_roll_min_crit rest (some p) := rfl
    rw [h0, emit_attack_roll_min_crit_pos p rest hp hrest]
  · intro roll d o
    simp [Character.attack_is_crit]

/-- Witness for C3 at a concrete input: proposals 19 and 18 are positive and
aggregate to threshold 18, at which a natural 18 is a crit. -/
theorem crit_threshold_min_aggregation_witness :
    emit_attack_roll_min_crit ((19 : Int) :: [18]) none = some ([(18 : Int)].foldl min 19)
    ∧ Character.attack_is_crit 18 20 (emit_attack_roll_min_crit [19, 18] none) = true := by
  constructor
  · exact (crit_threshold_min_aggregation.1 19 [18] (by decide) (by decide))
  · have h := (crit_threshold_min_aggregation.2.2.2.2 18 20 (some 18)).2 (by decide)
    exact h

/-- C4: for every `Resource` and non-negative `n`: `reset()` makes
`current = maximum`; `use(n)` never drives `current` negative; when
`n > current` it returns `false` leaving the state unchanged, and when
`n <= current` it returns `true` decrementing `current` by `n`; the
`WarlockPactSlots.use` override behaves the same way. -/
theorem resource_reset_use_contract (r : Resource) (n : Int) (hn : 0 ≤ n) :
    (r.reset.num = r.max)
    ∧ (∀ (d t : Option String) (k : Int) (b : Bool) (r2 : Resource),
        Resource.use n d t k r = .ok (b, r2) → 0 ≤ r.num → 0 ≤ r2.num)
    ∧ (n > r.num → ∀ (d t : Option String) (k : Int),
        Resource.use n d t k r = .ok (false, r))
    ∧ (n ≤ r.num → ∀ (d t : Option String) (k : Int), ∃ r2 : Resource,
        Resource.use n d t k r = .ok (true, r2) ∧ r2.num = r.num - n)
    ∧ (∀ (w : WarlockPactSlots) (d t : Option String) (k : Int),
        (n > w.base.num → WarlockPactSlots.use n d t k w = (false, w))
        ∧ (n ≤ w.base.num → ((WarlockPactSlots.use n d t k w).1 = true
            ∧ (WarlockPactSlots.use n d t k w).2.base.num = w.base.num - n))) := by
  have hnneg : ¬ n < 0 := not_lt.mpr hn
  refine ⟨rfl, ?_, ?_, ?_, ?_⟩
  · intro d t k b r2 huse hr
    unfold Resource.use at huse
    rw [if_neg hnneg] at huse
    by_cases h : r.num ≥ n
    · rw [if_pos h] at huse
      cases d with
      | some s =>
          simp only [Except.ok.injEq, Prod.mk.injEq] at huse
          rw [← huse.2]
          exact sub_nonneg.mpr h
      | none =>
          simp only [Except.ok.injEq, Prod.mk.injEq] at huse
          rw [← huse.2]
          exact sub_nonneg.mpr h
    · rw [if_neg h] at huse
      simp only [Except.ok.injEq, Prod.mk.injEq] at huse
      rw [← huse.2]
      exact hr
  · intro hgt d t k
    unfold Resource.use
    rw [if_neg hnneg, if_neg (not_le.mpr hgt)]
  · intro hle d t k
    unfold Resource.use
    rw [if_neg hnneg, if_pos hle]
    cases d with
    | some s => exact ⟨_, rfl, rfl⟩
    | none => exact ⟨_, rfl, rfl⟩
  · intro w d t k
    constructor
    · intro hgt
      unfold WarlockPactSlots.use
      rw [if_neg (not_le.mpr hgt)]
    · intro hle
      unfold WarlockPactSlots.use
      rw [if_pos hle]
      cases d with
      | some s => exact ⟨rfl, rfl⟩
      | none => exact ⟨rfl, rfl⟩

/-- Witness for C4 at a concrete resource (2 of 3 Ki remaining): reset
restores to 3; using 5 fails unchanged; using 2 succeeds down to 0. -/
theorem resource_reset_use_contract_witness :
    ((Resource.make "Ki" true).reset.num = (Resource.make "Ki" true).max)
    ∧ (Resource.use 5 none none 0 ⟨"Ki", 2, 3, true, []⟩
        = .ok (false, ⟨"Ki", 2, 3, true, []⟩))
    ∧ (∃ r2 : Resource, Resource.use 2 none none 0 ⟨"Ki", 2, 3, true, []⟩
        = .ok (true, r2) ∧ r2.num = 0) := by
  refine ⟨(resource_reset_use_contract (Resource.make "Ki" true) 0 (by decide)).1, ?_, ?_⟩
  · exact (resource_reset_use_contract ⟨"Ki", 2, 3, true, []⟩ 5 (by decide)).2.2.1
      (by decide) none none 0
  · obtain ⟨r2, h1, h2⟩ := (resource_reset_use_contract ⟨"Ki", 2, 3, true, []⟩ 2
      (by decide)).2.2.2.1 (by decide) none none 0
    exact ⟨r2, h1, by rw [h2]; decide⟩

/-- C5: if some listener's handler raises during `emit`, the exception
propagates out of `emit` and the listeners registered after it are not
invoked: the result is that error, whatever the later listeners are. -/
theorem eventloop_emit_raise_aborts_dispatch {σ ε : Type}
    (pre : List (Option (σ → Except ε σ))) (h : σ → Except ε σ)
    (rest : List (Option (σ → Except ε σ))) (s s' : σ) (e : ε)
    (hpre : EventLoop.emit pre s = .ok s') (herr : h s' = .error e) :
    EventLoop.emit (pre ++ some h :: rest) s = .error e := by
  induction pre generalizing s with
  | nil =>
      simp only [EventLoop.emit] at hpre
      cases hpre
      simp [EventLoop.emit, herr]
  | cons hd tl ih =>
      cases hd with
      | none =>
          simp only [EventLoop.emit] at hpre ⊢
          exact ih s hpre
      | some g =>
          simp only [EventLoop.emit] at hpre ⊢
          cases hg : g s with
          | error e2 => rw [hg] at hpre; cases hpre
          | ok s2 =>
              rw [hg] at hpre
              exact ih s2 hpre

/-- Witness for C5 at a concrete dispatch: one incrementing listener, then a
raising one, then another incrementing listener; `emit` on state 0 returns
the error, untouched by the third listener. -/
theorem eventloop_emit_raise_aborts_dispatch_witness :
    EventLoop.emit
      [some (fun n : Nat => Except.ok (n + 1)),
       some (fun _ : Nat => (Except.error "boom" : Except String Nat)),
       some (fun n : Nat => Except.ok (n + 100))] 0 = .error "boom" := by
  exact eventloop_emit_raise_aborts_dispatch
    [some (fun n : Nat => Except.ok (n + 1))]
    (fun _ : Nat => (Except.error "boom" : Except String Nat))
    [some (fun n : Nat => Except.ok (n + 100))] 0 1 "boom" rfl rfl

/-- C6: evaluated on a poisoned character with one short-rest and one
long-rest resource: `long_rest()` restores HP to max and resets both
resources; `short_rest()` resets only the short-rest resource, leaves HP
unchanged and clears the effects set — but, contrary to the claim, neither
rest clears the `poisoned` flag: the effective rest methods
(`sim/character.py` lines 518-527) shadow the earlier definitions (lines
212-225) that set `poisoned = False`. -/
theorem character_rest_poisoned_bug :
    let shortRes : Resource := ⟨"Ki", 0, 2, true, []⟩
    let longRes : Resource := ⟨"Rage", 0, 3, false, []⟩
    let c : Character :=
      ⟨"Monk", 5, 3, [10, 16, 12, 10, 14, 10], 15, 40, 7, 1, false, 0,
        true, ["vexed"], [shortRes, longRes]⟩
    (c.long_rest.hp = c.max_hp)
    ∧ (c.long_rest.resources.map Resource.num = [2, 3])
    ∧ (c.short_rest.resources.map Resource.num = [2, 0])
    ∧ (c.short_rest.hp = c.hp)
    ∧ (c.short_rest.effects = [])
    ∧ (c.short_rest.poisoned = true)
    ∧ (c.long_rest.poisoned = true) := by
  exact ⟨rfl, rfl, rfl, rfl, rfl, rfl, rfl⟩

/-- C9 counterexample: `Args.__init__` accepts a non-positive round count and
a non-positive fight count without raising — construction succeeds with
`num_rounds = 0` and `num_fights = 0` stored as given, refuting "a
Simulation/Args with a non-positive round, fight, or iteration count raises
a distinct error". -/
theorem args_unvalidated_rounds_counterexample :
    Args.init "fighter" 1 1 100 0 0 false "generic"
      = .ok ⟨"fighter", 1, 1, 100, 0, 0, false, "generic"⟩ := by
  rfl

/-- C9 (amended): `Character.__init__` and `Target.__init__` raise on a level
outside 1-20 and succeed otherwise with the level stored as given;
`Simulation.__init__` raises on non-positive fight or round counts and
otherwise stores them as given; `Args.__init__` raises on out-of-range levels
and on non-positive or above-maximum iteration counts, and otherwise stores
all its arguments as given — including unvalidated non-positive round/fight
counts. -/
theorem construction_validation :
    (∀ (level : Int) (stats : List Int) (name : String) (ac : Option Int),
      stats.length = 6 → ¬ (1 ≤ level ∧ level ≤ 20) →
        ∃ e, Character.init level stats name ac = .error e)
    ∧ (∀ (level : Int) (stats : List Int) (name : String) (ac : Option Int),
      stats.length = 6 → 1 ≤ level → level ≤ 20 →
        ∃ c : Character, Character.init level stats name ac = .ok c
          ∧ c.level = level ∧ c.stats = stats)
    ∧ (∀ (level : Int) (ac : Option Int) (name : String),
      ¬ (1 ≤ level ∧ level ≤ 20) → ∃ e, Target.init level ac name = .error e)
    ∧ (∀ (level : Int) (ac : Option Int) (name : String),
      1 ≤ level → level ≤ 20 →
        ∃ t : Target, Target.init level ac name = .ok t ∧ t.level = level)
    ∧ (∀ f r : Int, f < 1 ∨ r < 1 → ∃ e, Simulation.init f r = .error e)
    ∧ (∀ f r : Int, 1 ≤ f → 1 ≤ r →
        Simulation.init f r = .ok ⟨f, r⟩)
    ∧ (∀ (ch : String) (sl el it nr nf : Int) (dbg : Bool) (mn : String),
        1 ≤ sl → sl ≤ 20 → 1 ≤ el → el ≤ 20 → sl ≤ el →
        (it < 1 ∨ it > MAX_ITERATIONS) →
          ∃ e, Args.init ch sl el it nr nf dbg mn = .error e)
    ∧ (∀ (ch : String) (sl el it nr nf : Int) (dbg : Bool) (mn : String),
        1 ≤ sl → sl ≤ 20 → 1 ≤ el → el ≤ 20 → sl ≤ el →
        1 ≤ it → it ≤ MAX_ITERATIONS →
          Args.init ch sl el it nr nf dbg mn = .ok ⟨ch, sl, el, it, nr, nf, dbg, mn⟩) := by
  refine ⟨?_, ?_, ?_, ?_, ?_, ?_, ?_, ?_⟩
  · intro level stats name ac h6 hbad
    refine ⟨s!"Level must be 1-20, got {level}", ?_⟩
    unfold Character.init
    rw [if_neg (by simp [h6]), if_pos hbad]
  · intro level stats name ac h6 h1 h2
    unfold Character.init
    rw [if_neg (by simp [h6]), if_neg (not_not_intro ⟨h1, h2⟩)]
    exact ⟨_, rfl, rfl, rfl⟩
  · intro level ac name hbad
    exact ⟨_, by unfold Target.init; rw [if_pos hbad]⟩
  · intro level ac name h1 h2
    unfold Target.init
    rw [if_neg (not_not_intro ⟨h1, h2⟩)]
    exact ⟨_, rfl, rfl⟩
  · intro f r hbad
    unfold Simulation.init
    rcases hbad with hf | hr
    · exact ⟨_, by rw [if_pos hf]⟩
    · by_cases hf : f < 1
      · exact ⟨_, by rw [if_pos hf]⟩
      · exact ⟨_, by rw [if_neg hf, if_pos hr]⟩
  · intro f r hf hr
    unfold Simulation.init
    rw [if_neg (not_lt.mpr hf), if_neg (not_lt.mpr hr)]
  · intro ch sl el it nr nf dbg mn hsl1 hsl2 hel1 hel2 hle hbad
    unfold Args.init
    rw [if_neg (not_not_intro ⟨hsl1, hsl2⟩),
      if_neg (not_not_intro ⟨hel1, hel2⟩),
      if_neg (not_lt.mpr hle)]
    rcases hbad with h | h
    · exact ⟨_, by rw [if_pos h]⟩
    · by_cases h1 : it < 1
      · exact ⟨_, by rw [if_pos h1]⟩
      · exact ⟨_, by rw [if_neg h1, if_pos h]⟩
  · intro ch sl el it nr nf dbg mn hsl1 hsl2 hel1 hel2 hle hit1 hit2
    unfold Args.init
    rw [if_neg (not_not_intro ⟨hsl1, hsl2⟩),
      if_neg (not_not_intro ⟨hel1, hel2⟩),
      if_neg (not_lt.mpr hle), if_neg (not_lt.mpr hit1),
      if_neg (not_lt.mpr hit2)]

/-- Witness for C9's amended theorem at concrete inputs: level 0 characters
and level 21 targets are rejected; level 5 construction succeeds unaltered; a
`Simulation` with 0 rounds is rejected while `Args` stores 0 rounds. -/
theorem construction_validation_witness :
    (∃ e, Character.init 0 [10, 10, 10, 10, 10, 10] "X" none = .error e)
    ∧ (∃ c : Character, Character.init 5 [10, 10, 10, 10, 10, 10] "X" none = .ok c
        ∧ c.level = 5 ∧ c.stats = [10, 10, 10, 10, 10, 10])
    ∧ (∃ e, Target.init 21 none "T" = .error e)
    ∧ (∃ e, Simulation.init 3 0 = .error e)
    ∧ (Simulation.init 3 5 = .ok ⟨3, 5⟩)
    ∧ (∃ e, Args.init "f" 1 1 0 5 3 false "generic" = .error e)
    ∧ (Args.init "f" 1 1 100 0 3 false "generic" = .ok ⟨"f", 1, 1, 100, 0, 3, false, "generic"⟩) := by
  refine ⟨?_, ?_, ?_, ?_, ?_, ?_, ?_⟩
  · exact construction_validation.1 0 [10, 10, 10, 10, 10, 10] "X" none (by decide) (by decide)
  · exact construction_validation.2.1 5 [10, 10, 10, 10, 10, 10] "X" none (by decide)
      (by decide) (by decide)
  · exact construction_validation.2.2.1 21 none "T" (by decide)
  · exact construction_validation.2.2.2.2.1 3 0 (Or.inr (by decide))
  · exact construction_validation.2.2.2.2.2.1 3 5 (by decide) (by decide)
  · exact construction_validation.2.2.2.2.2.2.1 "f" 1 1 0 5 3 false "generic"
      (by decide) (by decide) (by decide) (by decide) (by decide) (Or.inl (by decide))
  · exact construction_validation.2.2.2.2.2.2.2 "f" 1 1 100 0 3 false "generic"
      (by decide) (by decide) (by decide) (by decide) (by decide) (by decide) (by decide)

theorem simulation_fightRounds_eq_specRounds (r : Nat) :
    Simulation.fightRounds r = specRounds r := by
  induction r with
  | zero => rfl
  | succ n ih =>
      rw [specRounds, ← ih]
      unfold Simulation.fightRounds
      rw [List.range_succ, List.flatMap_append]
      rfl

theorem simulation_fights_eq_specFights (r : Nat) : ∀ f : Nat,
    ((List.range f).flatMap fun fight_num =>
      Simulation.fightRounds r
        ++ if fight_num < f - 1 then [SimAction.characterShortRest] else [])
      = specFights r f := by
  intro f
  cases f with
  | zero => rfl
  | succ n =>
      induction n with
      | zero =>
          simp [specFights, List.range_succ, simulation_fightRounds_eq_specRounds]
      | succ m ihm =>
          have hc2 : m + 2 - 1 = m + 1 := rfl
          have hc1 : m + 1 - 1 = m := rfl
          rw [hc1] at ihm
          rw [hc2, List.range_succ_eq_map, List.flatMap_cons, List.flatMap_map]
          have harg : (fun a : Nat => Simulation.fightRounds r
                ++ if Nat.succ a < m + 1 then [SimAction.characterShortRest] else [])
              = fun a : Nat => Simulation.fightRounds r
                ++ if a < m then [SimAction.characterShortRest] else [] := by
            funext a
            congr 1
            simp [Nat.succ_lt_succ_iff]
          rw [harg, ihm, if_pos (Nat.succ_pos m), specFights,
            simulation_fightRounds_eq_specRounds]

/-- C8: `Simulation.run` performs exactly: both long rests first, then for
each fight the configured rounds (each with the attacker's turn before the
target's turn), with one short rest between consecutive fights and none
after the last, then the damage log; and for positive counts the DPR
reported by `test_dpr` is the summed per-trial damage divided by
`rounds * fights * trials`. -/
theorem simulation_run_schedule_and_dpr :
    (∀ f r : Nat, Simulation.runTrace f r
      = [SimAction.characterLongRest, SimAction.targetLongRest]
          ++ specFights r f ++ [SimAction.logDamageSources])
    ∧ (∀ (f r it : Nat) (dmg : Nat → ℚ), 1 ≤ f → 1 ≤ r → 1 ≤ it →
        test_dpr f r it dmg
          = .ok ((((List.range it).map dmg).sum) / ((f * r * it : Nat) : ℚ))) := by
  constructor
  · intro f r
    unfold Simulation.runTrace
    rw [simulation_fights_eq_specFights]
  · intro f r it dmg hf hr hit
    unfold test_dpr
    rw [if_neg (not_lt.mpr hit)]
    have hpos : 0 < f * r * it :=
      Nat.mul_pos (Nat.mul_pos hf hr) hit
    simp only [if_pos hpos]

/-- Witness for C8 at concrete counts: 2 fights of 2 rounds produce the
claimed schedule (short rest only between the fights), and three trials of
damage 10, 20, 30 over 1 round and 1 fight report DPR 20. -/
theorem simulation_run_schedule_and_dpr_witness :
    (Simulation.runTrace 2 2
      = [SimAction.characterLongRest, SimAction.targetLongRest]
          ++ specFights 2 2 ++ [SimAction.logDamageSources])
    ∧ test_dpr 1 1 3 (fun i => 10 * (i + 1 : ℚ))
        = .ok ((((List.range 3).map (fun i => 10 * (i + 1 : ℚ))).sum) / ((1 * 1 * 3 : Nat) : ℚ)) := by
  exact ⟨simulation_run_schedule_and_dpr.1 2 2,
    simulation_run_schedule_and_dpr.2 1 1 3 (fun i => 10 * (i + 1 : ℚ))
      (by decide) (by decide) (by decide)⟩

@[simp]
theorem Combat.entity_turn_turn_order (c : Combat) (i j : Nat) :
    (c.entity_turn i j).turn_order = c.turn_order := rfl

@[simp]
theorem Combat.entity_turn_rounds (c : Combat) (i j : Nat) :
    (c.entity_turn i j).rounds = c.rounds := rfl

@[simp]
theorem Combat.entity_turn_combatants (c : Combat) (i j : Nat) :
    (c.entity_turn i j).combatants = c.combatants := rfl

@[simp]
theorem Combat.take_damage_at_turn_order (c : Combat) (j : Nat) :
    (c.take_damage_at j).turn_order = c.turn_order := rfl

@[simp]
theorem Combat.take_damage_at_rounds (c : Combat) (j : Nat) :
    (c.take_damage_at j).rounds = c.rounds := rfl

@[simp]
theorem Combat.next_choice_turn_order (c : Combat) :
    c.next_choice.2.turn_order = c.turn_order := by
  unfold Combat.next_choice
  cases c.choices <;> rfl

@[simp]
theorem Combat.next_choice_rounds (c : Combat) :
    c.next_choice.2.rounds = c.rounds := by
  unfold Combat.next_choice
  cases c.choices <;> rfl

@[simp]
theorem Combat.next_choice_combatants (c : Combat) :
    c.next_choice.2.combatants = c.combatants := by
  unfold Combat.next_choice
  cases c.choices <;> rfl

@[simp]
theorem Combat.select_target_simple_turn_order (c : Combat) (ts : List Nat) :
    (c.select_target_simple ts).2.turn_order = c.turn_order := by
  cases ts with
  | nil => rfl
  | cons t rest =>
      simp only [Combat.select_target_simple]
      split <;> simp

@[simp]
theorem Combat.select_target_simple_rounds (c : Combat) (ts : List Nat) :
    (c.select_target_simple ts).2.rounds = c.rounds := by
  cases ts with
  | nil => rfl
  | cons t rest =>
      simp only [Combat.select_target_simple]
      split <;> simp

@[simp]
theorem Combat.select_target_simple_combatants (c : Combat) (ts : List Nat) :
    (c.select_target_simple ts).2.combatants = c.combatants := by
  cases ts with
  | nil => rfl
  | cons t rest =>
      simp only [Combat.select_target_simple]
      split <;> simp

@[simp]
theorem Combat.select_target_turn_order (c : Combat) (cb : Combatant) (ts : List Nat) :
    (c.select_target cb ts).2.turn_order = c.turn_order := by
  unfold Combat.select_target
  split
  · cases ts <;> rfl
  · simp

@[simp]
theorem Combat.select_target_rounds (c : Combat) (cb : Combatant) (ts : List Nat) :
    (c.select_target cb ts).2.rounds = c.rounds := by
  unfold Combat.select_target
  split
  · cases ts <;> rfl
  · simp

@[simp]
theorem Combat.select_target_combatants (c : Combat) (cb : Combatant) (ts : List Nat) :
    (c.select_target cb ts).2.combatants = c.combatants := by
  unfold Combat.select_target
  split
  · cases ts <;> rfl
  · simp

theorem Combat.act_turn_order (c1 : Combat) (idx : Nat) :
    (Combat.act c1 idx).turn_order = c1.turn_order := by
  unfold Combat.act
  by_cases hd : (c1.getCombatant idx).is_down = true
  · simp [hd]
  · simp only [Bool.not_eq_true] at hd
    simp only [hd, Bool.false_eq_true, if_false]
    by_cases hts : c1.valid_targets (c1.getCombatant idx) = []
    · simp [hts]
    · simp only [hts, if_false]
      split <;> split <;> simp

theorem Combat.act_down (c1 : Combat) (idx : Nat)
    (hd : (c1.getCombatant idx).is_down = true) :
    Combat.act c1 idx = c1 := by
  unfold Combat.act
  simp [hd]

theorem Combat.act_rounds (c1 : Combat) (idx : Nat)
    (hd : (c1.getCombatant idx).is_down = false)
    (hts : c1.valid_targets (c1.getCombatant idx) ≠ []) :
    (Combat.act c1 idx).rounds =
      if c1.turn_order.head? = some 0 then c1.rounds + 1 else c1.rounds := by
  unfold Combat.act
  simp only [hd, Bool.false_eq_true, if_false, hts, ite_false]
  split <;>
  · simp only [Combat.take_damage_at_turn_order, Combat.entity_turn_turn_order,
      Combat.select_target_turn_order]
    split <;> simp

/-- C7 counterexample: in `c7ex` the rotation completes a full cycle back to
the original front in 3 sub-turns (the defeated combatant is skipped but
stays in the rotation), yet the round counter has not incremented at all —
refuting "the round counter increments exactly once each time the rotation
completes a full cycle back to the original front". -/
theorem combat_round_increment_counterexample :
    (c7ex.run_combat_turn.run_combat_turn.run_combat_turn).turn_order = c7ex.turn_order
    ∧ (c7ex.run_combat_turn.run_combat_turn.run_combat_turn).rounds = 0
    ∧ ((c7ex.run_combat_turn.run_combat_turn.run_combat_turn).combatants.getD 1 default).is_down = true
    ∧ c7ex.rounds = 0 := by
  refine ⟨by decide, by decide, by decide, rfl⟩

/-- C7 (amended): in an ongoing combat a sub-turn rotates the turn order
(pop front, push to back) without re-sorting; a defeated front combatant's
turn is skipped — the state changes only by the rotation, so it stays in the
rotation and in particular the round counter does not increment on its
sub-turn; a non-skipped sub-turn with valid targets increments the round
counter exactly when the rotation has just brought the first-constructed
combatant (`combatants[0]`) to the front; consequently in the 3-combatant
combat `c7ok` with every combatant alive, after exactly 3 sub-turns the round
counter has incremented exactly once (and not before) and the combatant who
started the rotation is again at the front. -/
theorem combat_rotation_round_increment :
    (∀ (c : Combat) (idx : Nat) (rest : List Nat),
      c.is_over = false → c.turn_order = idx :: rest →
        c.run_combat_turn.turn_order = rest ++ [idx])
    ∧ (∀ (c : Combat) (idx : Nat) (rest : List Nat),
      c.is_over = false → c.turn_order = idx :: rest →
        (c.getCombatant idx).is_down = true →
        c.run_combat_turn = { c with turn_order := rest ++ [idx] })
    ∧ (∀ (c : Combat) (idx : Nat) (rest : List Nat),
      c.is_over = false → c.turn_order = idx :: rest →
        (c.getCombatant idx).is_down = false →
        c.valid_targets (c.getCombatant idx) ≠ [] →
        c.run_combat_turn.rounds =
          if (rest ++ [idx]).head? = some 0 then c.rounds + 1 else c.rounds)
    ∧ ((c7ok.run_combat_turn.run_combat_turn.run_combat_turn).rounds = c7ok.rounds + 1
        ∧ (c7ok.run_combat_turn.run_combat_turn.run_combat_turn).turn_order = c7ok.turn_order
        ∧ c7ok.run_combat_turn.rounds = c7ok.rounds
        ∧ (c7ok.run_combat_turn.run_combat_turn).rounds = c7ok.rounds) := by
  refine ⟨?_, ?_, ?_, by decide, by decide, by decide, by decide⟩
  · intro c idx rest hover horder
    simp only [Combat.run_combat_turn, hover, Bool.false_eq_true, if_false, horder,
      List.isEmpty_cons, Combat.advance]
    rw [Combat.act_turn_order]
  · intro c idx rest hover horder hd
    simp only [Combat.run_combat_turn, hover, Bool.false_eq_true, if_false, horder,
      List.isEmpty_cons, Combat.advance]
    exact Combat.act_down _ idx hd
  · intro c idx rest hover horder hd hts
    simp only [Combat.run_combat_turn, hover, Bool.false_eq_true, if_false, horder,
      List.isEmpty_cons, Combat.advance]
    exact Combat.act_rounds _ idx hd hts

/-- Witness for C7's amended theorem at concrete combats: rotation on
`c7ex`, the skip of the defeated front combatant of `c7skip`, and the
no-increment sub-turn of `c7ok`. -/
theorem combat_rotation_round_increment_witness :
    (c7ex.run_combat_turn.turn_order = [2, 1] ++ [0])
    ∧ (c7skip.run_combat_turn = { c7skip with turn_order := [0, 2] ++ [1] })
    ∧ (c7ok.run_combat_turn.rounds =
        if ([2, 1] ++ [0]).head? = some 0 then c7ok.rounds + 1 else c7ok.rounds) := by
  refine ⟨?_, ?_, ?_⟩
  · exact combat_rotation_round_increment.1 c7ex 0 [2, 1] (by decide) rfl
  · exact combat_rotation_round_increment.2.1 c7skip 1 [0, 2] (by decide) rfl (by decide)
  · exact combat_rotation_round_increment.2.2.1 c7ok 0 [2, 1] (by decide) rfl
      (by decide) (by decide)

theorem Combatant.take_damage_keeps_down (hp : Int) (cb : Combatant)
    (h : cb.is_down = true) :
    (Combatant.take_damage hp cb).is_down = true := by
  simp [Combatant.take_damage, h]

theorem Combat.take_damage_at_keeps_down (c : Combat) (j k : Nat)
    (hk : (c.combatants.getD k default).is_down = true) :
    ((c.take_damage_at j).combatants.getD k default).is_down = true := by
  show ((c.combatants.set j
      (Combatant.take_damage ((c.entities.getD (c.getCombatant j).entityIdx default).hp)
        (c.getCombatant j))).getD k default).is_down = true
  by_cases hjk : j = k
  · subst hjk
    by_cases hlen : j < c.combatants.length
    · rw [show ((c.combatants.set j
          (Combatant.take_damage ((c.entities.getD (c.getCombatant j).entityIdx default).hp)
            (c.getCombatant j))).getD j default)
          = Combatant.take_damage ((c.entities.getD (c.getCombatant j).entityIdx default).hp)
            (c.getCombatant j) from by
        simp [List.getD, List.getElem?_set_self, hlen]]
      exact Combatant.take_damage_keeps_down _ _ hk
    · rw [List.set_eq_of_length_le (Nat.le_of_not_lt hlen)]
      exact hk
  · rw [show ((c.combatants.set j
        (Combatant.take_damage ((c.entities.getD (c.getCombatant j).entityIdx default).hp)
          (c.getCombatant j))).getD k default) = c.combatants.getD k default from by
      simp [List.getD, List.getElem?_set_ne hjk]]
    exact hk

theorem Combat.act_keeps_down (c1 : Combat) (idx k : Nat)
    (hk : (c1.combatants.getD k default).is_down = true) :
    ((Combat.act c1 idx).combatants.getD k default).is_down = true := by
  unfold Combat.act
  by_cases hd : (c1.getCombatant idx).is_down = true
  · simp only [hd, if_true]
    exact hk
  · simp only [Bool.not_eq_true] at hd
    simp only [hd, Bool.false_eq_true, if_false]
    by_cases hts : c1.valid_targets (c1.getCombatant idx) = []
    · simp only [hts, ite_true]
      exact hk
    · simp only [hts, ite_false]
      split <;>
      · split
        all_goals
          apply Combat.take_damage_at_keeps_down
          simpa using hk

theorem List.getD_mapIdx_of_lt {α β : Type} [Inhabited α] [Inhabited β]
    (l : List α) (f : Nat → α → β) (k : Nat) (hk : k < l.length) :
    (l.mapIdx f).getD k default = f k (l.getD k default) := by
  simp [List.getD, List.getElem?_eq_getElem hk]

theorem Combat.setup_combat_keeps_down (c : Combat) (k : Nat)
    (hk : (c.combatants.getD k default).is_down = true) :
    ((c.setup_combat).combatants.getD k default).is_down = true := by
  unfold Combat.setup_combat
  by_cases hlen : k < c.combatants.length
  · show ((c.combatants.mapIdx fun (i : Nat) (cb : Combatant) =>
        ({ cb with initiative :=
            (((c.choices.getD i 0) % 20 + 1 : Nat) : Int)
              + ((c.entities.map fun (e : PEntity) => { e with hp := e.max_hp }).getD cb.entityIdx default).dexmod } : Combatant)).getD k default).is_down = true
    rw [List.getD_mapIdx_of_lt _ _ _ hlen]
    exact hk
  · have hdef : c.combatants.getD k default = default := by
      simp [List.getD, List.getElem?_eq_none (Nat.le_of_not_lt hlen)]
    rw [hdef] at hk
    simp at hk

theorem Combat.not_over_combatants_ne_nil (c : Combat) (h : c.is_over = false) :
    c.combatants ≠ [] := by
  intro hnil
  simp [Combat.is_over, Combat.party_alive, hnil] at h

theorem Combat.setup_combat_turn_order_ne_nil (c : Combat)
    (hc : c.combatants ≠ []) : c.setup_combat.turn_order ≠ [] := by
  intro h
  have hlen := congrArg List.length h
  simp only [Combat.setup_combat, List.length_mergeSort, List.length_range,
    List.length_mapIdx, List.length_nil] at hlen
  exact hc (List.length_eq_zero.mp hlen)

theorem Combat.advance_keeps_down (c0 : Combat) (k : Nat)
    (hk : (c0.combatants.getD k default).is_down = true) :
    (c0.advance.combatants.getD k default).is_down = true := by
  unfold Combat.advance
  split
  · exact hk
  · exact Combat.act_keeps_down _ _ k hk

/-- C10 counterexample: a `Combatant` that is already down whose entity hp is
-5 gets `current_hp = -5` from `take_damage()` — the clamp to 0 happens only
on the transition to down, so `current_hp` can be negative after a
`take_damage()` call, refuting "current_hp is never negative". -/
theorem combatant_take_damage_negative_counterexample :
    (Combatant.take_damage (-5) ⟨1, "party", 5, 0, true⟩).current_hp = -5
    ∧ ¬ (0 ≤ (Combatant.take_damage (-5) ⟨1, "party", 5, 0, true⟩).current_hp) := by
  exact ⟨rfl, by decide⟩

/-- C10 (amended): `take_damage()` on a not-yet-down combatant clamps
`current_hp` to `max hp 0` and sets `is_down` exactly when the entity's hp is
<= 0; on an already-down combatant it copies the entity's hp unclamped (so a
negative value persists) and leaves `is_down` true; and neither
`take_damage` nor any `run_combat_turn` ever resets `is_down` to false. -/
theorem combatant_take_damage_contract :
    (∀ (hp : Int) (cb : Combatant), cb.is_down = false →
      (Combatant.take_damage hp cb).current_hp = max hp 0
      ∧ ((Combatant.take_damage hp cb).is_down = true ↔ hp ≤ 0))
    ∧ (∀ (hp : Int) (cb : Combatant), cb.is_down = true →
      Combatant.take_damage hp cb = { cb with current_hp := hp, is_down := true })
    ∧ (∀ (c : Combat) (k : Nat),
      (c.combatants.getD k default).is_down = true →
      (c.run_combat_turn.combatants.getD k default).is_down = true) := by
  refine ⟨?_, ?_, ?_⟩
  · intro hp cb h
    unfold Combatant.take_damage
    by_cases hle : hp ≤ 0
    · rw [if_pos ⟨hle, h⟩]
      exact ⟨(max_eq_right hle).symm, by simp [hle]⟩
    · rw [if_neg (fun hcon => hle hcon.1)]
      refine ⟨(max_eq_left (le_of_lt (not_le.mp hle))).symm, ?_⟩
      simp [h, hle]
  · intro hp cb h
    unfold Combatant.take_damage
    rw [if_neg (fun hcon => by have h2 := hcon.2; simp [h] at h2)]
    cases cb
    simp_all
  · intro c k hk
    unfold Combat.run_combat_turn
    split
    · exact hk
    · split
      · exact Combat.advance_keeps_down _ k (Combat.setup_combat_keeps_down c k hk)
      · exact Combat.advance_keeps_down c k hk

/-- Witness for C10's amended theorem at concrete combatants: a live
combatant whose entity hp reaches -3 is clamped to 0 and marked down; an
already-down combatant keeps `is_down` across a `take_damage`; the defeated
combatant of `c7ex` is still down after a `run_combat_turn`. -/
theorem combatant_take_damage_contract_witness :
    ((Combatant.take_damage (-3) ⟨0, "party", 12, 10, false⟩).current_hp = max (-3) 0
      ∧ ((Combatant.take_damage (-3) ⟨0, "party", 12, 10, false⟩).is_down = true ↔ (-3 : Int) ≤ 0))
    ∧ (Combatant.take_damage (-5) ⟨1, "party", 5, 0, true⟩
        = { (⟨1, "party", 5, 0, true⟩ : Combatant) with current_hp := -5, is_down := true })
    ∧ ((c7ex.run_combat_turn.combatants.getD 1 default).is_down = true) := by
  refine ⟨?_, ?_, ?_⟩
  · exact combatant_take_damage_contract.1 (-3) ⟨0, "party", 12, 10, false⟩ rfl
  · exact combatant_take_damage_contract.2.1 (-5) ⟨1, "party", 5, 0, true⟩ rfl
  · exact combatant_take_damage_contract.2.2 c7ex 1 (by decide)

end DndSim

